import Mathlib

/-!
Verification of the process-supervision entrypoint of the hardened-vpn-node
repository (entrypoint.go): shallow embedding of the Configuration loader,
Rate Limiter, Health Checker, Process Manager, Server Manager and event-loop
orchestrator, with theorems settling the frozen claims about them.

Go durations (time.Duration) and time instants are embedded as plain Int
values counting nanoseconds. Go maps with zero-value reads are embedded as
total functions defaulting to the zero value. Fallible Go calls return
Option String, where none stands for a nil error.
-/

namespace VpnNode

/-- One second, in nanoseconds (Go time.Second). -/
def second : Int := 1000000000

/-- One minute, in nanoseconds (Go time.Minute). -/
def minute : Int := 60 * second

/-! ## Configuration loader (entrypoint.go, loadConfiguration and helpers)

The environment is embedded as a total function from variable names to
values, with the empty string standing for an unset variable, exactly as
os.Getenv reports it. Go's time.ParseDuration is standard-library code
outside this repository; it is passed in as an oracle of type
String → Option Int, since the loader's behaviour depends only on
whether the parse succeeds and on the parsed value. -/

/-- The process environment as seen through os.Getenv. -/
abbrev Env := String → String

/-- Default configuration values, from the const block of entrypoint.go. -/
def defaultXrayBin : String := "/usr/local/bin/xray"

/-- Default config path (entrypoint.go const defaultXrayConfig). -/
def defaultXrayConfig : String := "/etc/xray/config.json"

/-- Default health listen address (entrypoint.go const defaultHealthAddr). -/
def defaultHealthAddr : String := ":8080"

/-- Default management socket (entrypoint.go const defaultXrayMgmtSocket). -/
def defaultXrayMgmtSocket : String := "127.0.0.1:10085"

/-- Default connect timeout, 2s (entrypoint.go const defaultConnectTimeout). -/
def defaultConnectTimeout : Int := 2 * second

/-- Default grace period, 12s (entrypoint.go const defaultGracePeriod). -/
def defaultGracePeriod : Int := 12 * second

/-- Default shutdown timeout, 5s (entrypoint.go const defaultShutdownTimeout). -/
def defaultShutdownTimeout : Int := 5 * second

/-- Default client UUID (entrypoint.go const defaultClientUUID). -/
def defaultClientUUID : String := "00000000-0000-0000-0000-000000000000"

/-- Default client email (entrypoint.go const defaultClientEmail). -/
def defaultClientEmail : String := "default@example.com"

/-- Configuration record (entrypoint.go type Configuration). -/
structure Configuration where
  XrayBin : String
  XrayConfig : String
  HealthAddr : String
  XrayMgmtSocket : String
  ConnectTimeout : Int
  GracePeriod : Int
  ShutdownTimeout : Int
  ClientUUID : String
  ClientEmail : String
deriving DecidableEq, Repr

/-- Embeds getEnvOrDefault: returns the environment value when nonempty,
the default otherwise. -/
def getEnvOrDefault (env : Env) (key defaultValue : String) : String :=
  if env key ≠ "" then env key else defaultValue

/-- Embeds parseDurationOrDefault: when the variable is set, a successful
parse wins; a failed parse falls back to the default (the Go code logs a
warning there); an unset variable yields the default. -/
def parseDurationOrDefault (parseDuration : String → Option Int)
    (env : Env) (key : String) (defaultValue : Int) : Int :=
  if env key ≠ "" then
    match parseDuration (env key) with
    | some duration => duration
    | none => defaultValue
  else defaultValue

/-- Embeds loadConfiguration: builds the Configuration value field by field
from the environment with the documented defaults. -/
def loadConfiguration (parseDuration : String → Option Int)
    (env : Env) : Configuration :=
  { XrayBin := getEnvOrDefault env "XRAY_BIN" defaultXrayBin
    XrayConfig := getEnvOrDefault env "XRAY_CONFIG" defaultXrayConfig
    HealthAddr := getEnvOrDefault env "HEALTH_ADDR" defaultHealthAddr
    XrayMgmtSocket := getEnvOrDefault env "XRAY_MGMT_SOCKET" defaultXrayMgmtSocket
    ConnectTimeout := parseDurationOrDefault parseDuration env "CONNECT_TIMEOUT" defaultConnectTimeout
    GracePeriod := parseDurationOrDefault parseDuration env "GRACE_PERIOD" defaultGracePeriod
    ShutdownTimeout := parseDurationOrDefault parseDuration env "SHUTDOWN_TIMEOUT" defaultShutdownTimeout
    ClientUUID := getEnvOrDefault env "XRAY_CLIENT_UUID" defaultClientUUID
    ClientEmail := getEnvOrDefault env "XRAY_CLIENT_EMAIL" defaultClientEmail }

/-! ## Process Manager (entrypoint.go, ProcessManager)

The child process handle is embedded by its observable status. Go's
os.Process records a done flag that is set once the process has been
waited on; Process.Signal and Process.Kill return the error
"os: process already finished" exactly when that flag is set, while a
signal sent to an exited-but-unreaped child (a zombie) still succeeds at
the OS level and returns nil. -/

/-- Status of the supervised child process. The outcome field is the error
value the child's wait would report (none for a clean exit). -/
inductive ChildStatus where
  | running
  | exitedNotReaped (outcome : Option String)
  | reaped (outcome : Option String)
deriving DecidableEq, Repr

/-- Embeds ProcessManager.Kill, which delegates to os.Process.Kill:
nil while the handle has not been reaped (the kill signal is delivered,
even to a zombie), and the process-already-finished error once a wait
has reaped the child. It never reports the child's exit outcome, whose
only carrier is the wait result. -/
def ProcessManager.Kill : ChildStatus → Option String
  | ChildStatus.running => none
  | ChildStatus.exitedNotReaped _ => none
  | ChildStatus.reaped _ => some "os: process already finished"

/-! ## Event-loop orchestrator (entrypoint.go, runEventLoop and handlers)

The orchestrator's behaviour is embedded as the trace of primitive
operations it issues against the Process Manager, the Server Manager and
the OS. The event loop is a single goroutine selecting over the signal
channel and the single-slot child-exit channel, so a run is the sequential
processing of an arbitrarily interleaved list of events, stopping at the
first os.Exit. -/

/-- Primitive operations issued during a run. -/
inductive Op where
  | opWait
  | opSignalChild
  | opKillChild
  | opServerShutdown
  | opExit (code : Nat)
deriving DecidableEq, Repr

/-- Signals the loop is notified for. -/
inductive Sig where
  | sighup
  | sigint
  | sigterm
deriving DecidableEq, Repr

/-- Environment nondeterminism consumed by the signal path: whether
pm.Signal succeeds, whether the child exits within the grace period, and
the error results that the Go code only logs. -/
structure SignalEnv where
  deliverOK : Bool
  exitsWithinGrace : Bool
  waitResult : Option String
  killResult : Option String
  serverShutdownResult : Option String
deriving DecidableEq, Repr

/-- Embeds ProcessManager.GracefulShutdown. Mirroring the source, it first
spawns a goroutine that calls pm.Wait() on the child handle (the opWait in
the trace), then selects the grace-period timer against that goroutine's
channel: if the child exits within the grace period the wait result is
returned, otherwise pm.Kill() is issued and its result returned. -/
def ProcessManager.GracefulShutdown (exitsWithinGrace : Bool)
    (waitResult killResult : Option String) : Option String × List Op :=
  if exitsWithinGrace then
    (waitResult, [Op.opWait])
  else
    (killResult, [Op.opWait, Op.opKillChild])

/-- Embeds handleSignal. SIGHUP is logged and ignored. Otherwise the
signal is forwarded to the child; if forwarding fails the handler logs and
returns to the event loop at once. On successful delivery it runs
GracefulShutdown (whose error is only logged), shuts down the HTTP server
(error only logged), and exits with code 0. The second component is the
exit code when the handler terminates the process. -/
def handleSignal (sig : Sig) (e : SignalEnv) : List Op × Option Nat :=
  if sig = Sig.sighup then
    ([], none)
  else
    if e.deliverOK then
      let gs := ProcessManager.GracefulShutdown e.exitsWithinGrace e.waitResult e.killResult
      (Op.opSignalChild :: gs.2 ++ [Op.opServerShutdown, Op.opExit 0], some 0)
    else
      ([Op.opSignalChild], none)

/-- Embeds handleProcessExit: a child exit with error logs and exits with
code 1 at once; a clean exit shuts down the HTTP server (error only
logged) and exits with code 0. -/
def handleProcessExit (err : Option String) (_serverShutdownResult : Option String) :
    List Op × Option Nat :=
  match err with
  | some _ => ([Op.opExit 1], some 1)
  | none => ([Op.opServerShutdown, Op.opExit 0], some 0)

/-- An event the loop can receive: a delivered OS signal, or the child-exit
notification from the dedicated background wait task. -/
inductive Ev where
  | evSignal (sig : Sig) (e : SignalEnv)
  | evChildExit (err : Option String) (serverShutdownResult : Option String)
deriving DecidableEq, Repr

/-- Dispatch of one event, as the select in runEventLoop does. -/
def handleEvent : Ev → List Op × Option Nat
  | Ev.evSignal sig e => handleSignal sig e
  | Ev.evChildExit err s => handleProcessExit err s

/-- Sequential processing of the events by the single event-loop goroutine;
once a handler calls os.Exit no further event is processed. -/
def processEvents : List Ev → List Op
  | [] => []
  | e :: rest =>
    let r := handleEvent e
    r.1 ++ (match r.2 with
      | some _ => []
      | none => processEvents rest)

/-- Embeds runEventLoop: it first spawns the dedicated background task
calling pm.Wait() (the leading opWait), then loops over the events. -/
def runEventLoop (events : List Ev) : List Op :=
  Op.opWait :: processEvents events

/-- Number of os.Exit operations in a trace. -/
def exitCount (tr : List Op) : Nat :=
  tr.countP (fun o => match o with
    | Op.opExit _ => true
    | _ => false)

/-- An event that triggers a terminal transition: a successfully delivered
termination signal, or the child-exit notification. -/
def isTerminalEv : Ev → Bool
  | Ev.evSignal sig e => decide (sig ≠ Sig.sighup) && e.deliverOK
  | Ev.evChildExit _ _ => true

/-! ## Rate Limiter (entrypoint.go, RateLimiter)

The Go map from client key to timestamp slice is embedded as a total
function defaulting to the empty list, matching Go map zero-value reads
(the code skips the prune write-back when the key is absent, which reads
back identically to writing the empty list). The whole check-and-record
operation runs under the limiter's exclusive lock in Go, so one call is
one atomic state transition here. -/

/-- Rate limiter state (entrypoint.go type RateLimiter). -/
structure RateLimiter where
  requests : String → List Int
  limit : Nat
  window : Int

/-- Embeds NewRateLimiter: empty table, given limit and window. -/
def NewRateLimiter (limit : Nat) (window : Int) : RateLimiter :=
  { requests := fun _ => [], limit := limit, window := window }

/-- Embeds RateLimiter.Allow: compute windowStart = now − window, keep only
timestamps strictly after windowStart (Go reqTime.After(windowStart)) and
store them back; reject without recording when the remaining count reaches
the limit (Go len ≥ limit); otherwise append now and accept. -/
def RateLimiter.Allow (rl : RateLimiter) (now : Int) (ip : String) : Bool × RateLimiter :=
  let windowStart := now - rl.window
  let validRequests := (rl.requests ip).filter (fun t => decide (windowStart < t))
  if rl.limit ≤ validRequests.length then
    (false, { rl with requests := fun k => if k = ip then validRequests else rl.requests k })
  else
    (true, { rl with requests := fun k => if k = ip then validRequests ++ [now] else rl.requests k })

/-- A sequence of Allow calls at the given times for one client key:
returns the final limiter state and the list of admitted times. -/
def runAllow (rl : RateLimiter) (ip : String) : List Int → RateLimiter × List Int
  | [] => (rl, [])
  | t :: ts =>
    let step := rl.Allow t ip
    let rest := runAllow step.2 ip ts
    (rest.1, (if step.1 then [t] else []) ++ rest.2)

/-- The per-client rate limiter NewHealthHandler installs:
10 requests per minute. -/
def healthRateLimiter : RateLimiter := NewRateLimiter 10 minute

/-- Membership of a timestamp in the trailing admission window (x − W, x]. -/
def inWindow (window : Int) (x t : Int) : Bool :=
  decide (x - window < t) && decide (t ≤ x)

/-! ## Health Checker (entrypoint.go, HealthChecker.Check)

The network is an oracle: the dial either fails with an error (timeout or
connection refused) or yields a connection handle, and closing a handle
reports the error value net.Conn.Close would return. -/

/-- A TCP connection handle; closeResult is what closing it reports
(none for a nil error), mirroring net.Conn.Close. -/
structure Conn where
  closeResult : Option String
deriving DecidableEq, Repr

/-- Embeds HealthChecker.Check: one bounded-timeout dial of the management
socket; a dial error is returned as the check result; on acceptance the
connection is closed at once and the close result is returned. -/
def HealthChecker.Check (dial : Except String Conn) : Option String :=
  match dial with
  | Except.error e => some e
  | Except.ok conn => conn.closeResult

/-! ## Client key extraction (entrypoint.go, getClientIP) -/

/-- An inbound HTTP request as the handler observes it: the method and
path, the three forwarding headers read through Header.Get (empty string
for an absent header, as in Go), and the socket peer address. -/
structure HttpRequest where
  method : String
  urlPath : String
  xForwardedFor : String
  xRealIP : String
  cfConnectingIP : String
  remoteAddr : String
deriving DecidableEq, Repr

/-- Model of net.SplitHostPort for the address shapes that occur as
http.Request.RemoteAddr: split at the last colon; a bracketed host has its
brackets stripped; an unbracketed host with a further colon, or an address
with no colon at all, is an error (none), as Go reports for too many
colons or a missing port. -/
def splitHostPort (s : String) : Option String :=
  match s.data.reverse.dropWhile (fun c => c != ':') with
  | [] => none
  | _ :: hostRev =>
    let host := hostRev.reverse
    match host with
    | '[' :: rest =>
      if rest.getLast? = some ']' then some (String.mk rest.dropLast) else none
    | _ => if host.contains ':' then none else some (String.mk host)

/-- Embeds getClientIP: X-Forwarded-For first, then X-Real-IP, then
CF-Connecting-IP, and only when all are absent the host part of
RemoteAddr, falling back to the raw RemoteAddr if it does not split. -/
def getClientIP (r : HttpRequest) : String :=
  if r.xForwardedFor ≠ "" then r.xForwardedFor
  else if r.xRealIP ≠ "" then r.xRealIP
  else if r.cfConnectingIP ≠ "" then r.cfConnectingIP
  else
    match splitHostPort r.remoteAddr with
    | some host => host
    | none => r.remoteAddr

/-! ## RFC3339 UTC formatting (model of time.Now().UTC().Format(time.RFC3339))

Go's time formatting is standard-library code; it is modelled by the
standard civil-from-days calendar algorithm over seconds since the Unix
epoch, producing the digits-and-separators shape of the RFC3339 layout
string used by the code. -/

/-- Day-of-era for a day count since the Unix epoch (era = 400 years). -/
def doeOf (z0 : Nat) : Nat := (z0 + 719468) % 146097

/-- Era index for a day count since the Unix epoch. -/
def eraOf (z0 : Nat) : Nat := (z0 + 719468) / 146097

/-- Year-of-era from the day-of-era. -/
def yoeOf (doe : Nat) : Nat := (doe - doe / 1460 + doe / 36524 - doe / 146096) / 365

/-- Day-of-year (March-based) from the day-of-era. -/
def doyOf (doe : Nat) : Nat := doe - (365 * yoeOf doe + yoeOf doe / 4 - yoeOf doe / 100)

/-- March-based month index from the day-of-era. -/
def mpOf (doe : Nat) : Nat := (5 * doyOf doe + 2) / 153

/-- Day of month from the day-of-era. -/
def dayOf (doe : Nat) : Nat := doyOf doe - (153 * mpOf doe + 2) / 5 + 1

/-- Calendar month from the day-of-era. -/
def monthOf (doe : Nat) : Nat := if mpOf doe < 10 then mpOf doe + 3 else mpOf doe - 9

/-- Calendar year for a day count since the Unix epoch. -/
def yearOf (z0 : Nat) : Nat :=
  yoeOf (doeOf z0) + eraOf z0 * 400 + (if monthOf (doeOf z0) ≤ 2 then 1 else 0)

/-- Two-digit zero padding, as in the RFC3339 layout. -/
def pad2 (n : Nat) : String := if n < 10 then "0" ++ toString n else toString n

/-- Four-digit zero padding, as in the RFC3339 layout year. -/
def pad4 (n : Nat) : String :=
  if n < 10 then "000" ++ toString n
  else if n < 100 then "00" ++ toString n
  else if n < 1000 then "0" ++ toString n
  else toString n

/-- The RFC3339 UTC timestamp for a count of seconds since the Unix
epoch, in the shape YYYY-MM-DDTHH:MM:SSZ. -/
def rfc3339UTC (sec : Nat) : String :=
  let days := sec / 86400
  let rem := sec % 86400
  pad4 (yearOf days) ++ "-" ++ pad2 (monthOf (doeOf days)) ++ "-" ++ pad2 (dayOf (doeOf days)) ++
    "T" ++ pad2 (rem / 3600) ++ ":" ++ pad2 ((rem % 3600) / 60) ++ ":" ++ pad2 (rem % 60) ++ "Z"

/-- A string has the RFC3339 UTC shape: padded year, month in 1..12, day
in 1..31, hour below 24, minute and second below 60, with the dashes,
the T, the colons and the trailing Z of the layout. -/
def IsRFC3339UTC (s : String) : Prop :=
  ∃ y mo d h mi se : Nat,
    1 ≤ mo ∧ mo ≤ 12 ∧ 1 ≤ d ∧ d ≤ 31 ∧ h < 24 ∧ mi < 60 ∧ se < 60 ∧
    s = pad4 y ++ "-" ++ pad2 mo ++ "-" ++ pad2 d ++ "T" ++ pad2 h ++ ":" ++
      pad2 mi ++ ":" ++ pad2 se ++ "Z"

/-! ## Health handler (entrypoint.go, HealthHandler.ServeHTTP / writeResponse) -/

/-- The JSON envelope written by the handler (entrypoint.go type
APIResponse); the health payload is a flat string map. -/
structure APIResponse where
  success : Bool
  message : String
  data : List (String × String)
  error : String
deriving DecidableEq, Repr

/-- A response body: the JSON envelope written through writeResponse, or
the plain-text line written through http.Error and http.NotFound. -/
inductive RespBody where
  | jsonBody (resp : APIResponse)
  | textBody (line : String)
deriving DecidableEq, Repr

/-- An HTTP response: status code, headers in the order they are set, and
the body. -/
structure HttpResponse where
  status : Nat
  headers : List (String × String)
  body : RespBody
deriving DecidableEq, Repr

/-- The hardening headers ServeHTTP sets on every response before any
branching. -/
def securityHeaders : List (String × String) :=
  [("X-Content-Type-Options", "nosniff"),
   ("X-Frame-Options", "DENY"),
   ("X-XSS-Protection", "1; mode=block"),
   ("Referrer-Policy", "strict-origin-when-cross-origin"),
   ("Content-Security-Policy", "default-src \x27none\x27")]

/-- Embeds HealthHandler.ServeHTTP: set the security headers; rate-limit
on the extracted client key (429 with a plain-text body on rejection);
404 for any path other than the root; run the health check and answer 503
with the plain-text token on failure; otherwise write the 200 JSON
envelope with the healthy status and the RFC3339 UTC timestamp through
writeResponse, which sets the JSON content type. The dial oracle and the
current time in epoch seconds are explicit inputs; the updated rate
limiter is returned alongside the response. -/
def HealthHandler.ServeHTTP (dial : Except String Conn) (nowSec : Nat)
    (rl : RateLimiter) (reqTime : Int) (r : HttpRequest) : HttpResponse × RateLimiter :=
  let clientIP := getClientIP r
  let res := rl.Allow reqTime clientIP
  if res.1 = false then
    ({ status := 429,
       headers := securityHeaders ++ [("Content-Type", "text/plain; charset=utf-8")],
       body := RespBody.textBody "rate limit exceeded" }, res.2)
  else if r.urlPath ≠ "/" then
    ({ status := 404,
       headers := securityHeaders ++ [("Content-Type", "text/plain; charset=utf-8")],
       body := RespBody.textBody "404 page not found" }, res.2)
  else
    match HealthChecker.Check dial with
    | some _ =>
      ({ status := 503,
         headers := securityHeaders ++ [("Content-Type", "text/plain; charset=utf-8")],
         body := RespBody.textBody "xray-api-unreachable" }, res.2)
    | none =>
      ({ status := 200,
         headers := securityHeaders ++ [("Content-Type", "application/json")],
         body := RespBody.jsonBody
           { success := true, message := "ok",
             data := [("status", "healthy"), ("timestamp", rfc3339UTC nowSec)],
             error := "" } }, res.2)

/-! ## Theorems -/

/-- Helper: counting operations over a sequentially processed event list.
Every run issues at most one exit, at most one child kill and at most one
server shutdown, and issues exactly one exit as soon as some event is
terminal (a delivered termination signal or the child-exit notification). -/
theorem processEvents_counts (events : List Ev) :
    exitCount (processEvents events) ≤ 1 ∧
    (processEvents events).count Op.opKillChild ≤ 1 ∧
    (processEvents events).count Op.opServerShutdown ≤ 1 ∧
    ((∃ e ∈ events, isTerminalEv e = true) → exitCount (processEvents events) = 1) := by
  induction events with
  | nil => simp [processEvents, exitCount]
  | cons e rest ih =>
    obtain ⟨ih1, ih2, ih3, ih4⟩ := ih
    cases e with
    | evSignal sig env =>
      by_cases hs : sig = Sig.sighup
      · subst hs
        have hpe : processEvents (Ev.evSignal Sig.sighup env :: rest) = processEvents rest := by
          simp [processEvents, handleEvent, handleSignal]
        refine ⟨by rw [hpe]; exact ih1, by rw [hpe]; exact ih2, by rw [hpe]; exact ih3, ?_⟩
        intro hx
        rw [hpe]
        apply ih4
        rcases hx with ⟨e', he', ht⟩
        rcases List.mem_cons.mp he' with h | h
        · subst h; simp [isTerminalEv] at ht
        · exact ⟨e', h, ht⟩
      · obtain ⟨dOK, eg, wr, kr, sr⟩ := env
        cases dOK with
        | false =>
          have hpe : processEvents (Ev.evSignal sig ⟨false, eg, wr, kr, sr⟩ :: rest) =
              Op.opSignalChild :: processEvents rest := by
            simp [processEvents, handleEvent, handleSignal, hs]
          refine ⟨?_, ?_, ?_, ?_⟩
          · rw [hpe]; simpa [exitCount, List.countP_cons] using ih1
          · rw [hpe]; simpa [List.count_cons] using ih2
          · rw [hpe]; simpa [List.count_cons] using ih3
          · intro hx
            rw [hpe]
            have : exitCount (processEvents rest) = 1 := by
              apply ih4
              rcases hx with ⟨e', he', ht⟩
              rcases List.mem_cons.mp he' with h | h
              · subst h; simp [isTerminalEv] at ht
              · exact ⟨e', h, ht⟩
            simpa [exitCount, List.countP_cons] using this
        | true =>
          cases eg with
          | false =>
            have hpe : processEvents (Ev.evSignal sig ⟨true, false, wr, kr, sr⟩ :: rest) =
                [Op.opSignalChild, Op.opWait, Op.opKillChild, Op.opServerShutdown,
                  Op.opExit 0] := by
              simp [processEvents, handleEvent, handleSignal, hs,
                ProcessManager.GracefulShutdown]
            rw [hpe]
            refine ⟨by decide, by decide, by decide, fun _ => by decide⟩
          | true =>
            have hpe : processEvents (Ev.evSignal sig ⟨true, true, wr, kr, sr⟩ :: rest) =
                [Op.opSignalChild, Op.opWait, Op.opServerShutdown, Op.opExit 0] := by
              simp [processEvents, handleEvent, handleSignal, hs,
                ProcessManager.GracefulShutdown]
            rw [hpe]
            refine ⟨by decide, by decide, by decide, fun _ => by decide⟩
    | evChildExit err s =>
      cases err with
      | none =>
        have hpe : processEvents (Ev.evChildExit none s :: rest) =
            [Op.opServerShutdown, Op.opExit 0] := by
          simp [processEvents, handleEvent, handleProcessExit]
        rw [hpe]
        refine ⟨by decide, by decide, by decide, fun _ => by decide⟩
      | some msg =>
        have hpe : processEvents (Ev.evChildExit (some msg) s :: rest) = [Op.opExit 1] := by
          simp [processEvents, handleEvent, handleProcessExit]
        rw [hpe]
        refine ⟨by decide, by decide, by decide, fun _ => by decide⟩

/-- Claim C2: at most one shutdown sequence ever executes. For every
interleaving of signal and child-exit events processed by the event loop,
as soon as one terminal event (a delivered termination signal or the
child-exit notification) occurs in the run, the trace contains exactly one
process exit, at most one forced kill of the child and at most one
shutdown of the HTTP server: the first terminal handler runs to os.Exit,
so no second shutdown sequence can start. -/
theorem c2_single_shutdown_sequence (events : List Ev)
    (hterm : ∃ e ∈ events, isTerminalEv e = true) :
    exitCount (runEventLoop events) = 1 ∧
    (runEventLoop events).count Op.opKillChild ≤ 1 ∧
    (runEventLoop events).count Op.opServerShutdown ≤ 1 := by
  obtain ⟨h1, h2, h3, h4⟩ := processEvents_counts events
  refine ⟨?_, ?_, ?_⟩ <;>
    simpa [runEventLoop, exitCount, List.count_cons] using (by first | exact h4 hterm | exact h2 | exact h3)

/-- Witness for c2_single_shutdown_sequence at a concrete run consisting of
a clean child exit racing a later termination signal. -/
theorem c2_single_shutdown_sequence_witness :
    (∃ e ∈ [Ev.evChildExit none none, Ev.evSignal Sig.sigterm ⟨true, true, none, none, none⟩],
        isTerminalEv e = true) ∧
      (exitCount (runEventLoop [Ev.evChildExit none none,
          Ev.evSignal Sig.sigterm ⟨true, true, none, none, none⟩]) = 1 ∧
        (runEventLoop [Ev.evChildExit none none,
            Ev.evSignal Sig.sigterm ⟨true, true, none, none, none⟩]).count Op.opKillChild ≤ 1 ∧
        (runEventLoop [Ev.evChildExit none none,
            Ev.evSignal Sig.sigterm ⟨true, true, none, none, none⟩]).count Op.opServerShutdown ≤ 1) :=
  ⟨by decide, c2_single_shutdown_sequence _ (by decide)⟩

/-- Claim C1 (code-bug evidence): the claim says the underlying wait on the
child handle is issued exactly once per run, only by the dedicated
background task, and never a second time by GracefulShutdown. In the code,
GracefulShutdown spawns its own goroutine calling pm.Wait() in both of its
branches, so a run in which a termination signal is delivered while the
child runs issues two wait calls on the same handle: one from
runEventLoop's background task and one from inside GracefulShutdown. -/
theorem c1_graceful_shutdown_double_wait :
    (ProcessManager.GracefulShutdown true none none).2.count Op.opWait = 1 ∧
    (ProcessManager.GracefulShutdown false none none).2.count Op.opWait = 1 ∧
    (runEventLoop [Ev.evSignal Sig.sigterm ⟨true, true, none, none, none⟩]).count Op.opWait = 2 := by
  decide

/-- Claim C3 is refuted as stated: when delivery of the termination signal
to the child fails, handleSignal logs and returns to the event loop at
once, so the remaining shutdown steps (graceful shutdown, server shutdown,
exit) do not proceed: the whole run trace is just the background wait and
the failed signal attempt. -/
theorem c3_counterexample :
    runEventLoop [Ev.evSignal Sig.sigterm ⟨false, true, none, none, none⟩] =
      [Op.opWait, Op.opSignalChild] ∧
    Op.opServerShutdown ∉ runEventLoop [Ev.evSignal Sig.sigterm ⟨false, true, none, none, none⟩] ∧
    exitCount (runEventLoop [Ev.evSignal Sig.sigterm ⟨false, true, none, none, none⟩]) = 0 := by
  decide

/-- Claim C3 (amended): on a termination signal whose delivery to the
child succeeds, the orchestrator performs the full ordered sequence:
forward the signal, run graceful shutdown (its wait, and a kill when the
grace period elapses), shut down the HTTP server, exit with code 0 — and
the sequence does not depend on the wait, kill or server-shutdown error
results, which are only logged. When signal delivery fails, the handler
only logs and returns to the event loop without the remaining steps. -/
theorem c3_signal_shutdown_sequence (sig : Sig) (e : SignalEnv)
    (hsig : sig ≠ Sig.sighup) :
    (e.deliverOK = true → e.exitsWithinGrace = true →
      handleSignal sig e =
        ([Op.opSignalChild, Op.opWait, Op.opServerShutdown, Op.opExit 0], some 0)) ∧
    (e.deliverOK = true → e.exitsWithinGrace = false →
      handleSignal sig e =
        ([Op.opSignalChild, Op.opWait, Op.opKillChild, Op.opServerShutdown, Op.opExit 0], some 0)) ∧
    (e.deliverOK = false → handleSignal sig e = ([Op.opSignalChild], none)) := by
  refine ⟨fun hd hg => ?_, fun hd hg => ?_, fun hd => ?_⟩
  · simp [handleSignal, ProcessManager.GracefulShutdown, hsig, hd, hg]
  · simp [handleSignal, ProcessManager.GracefulShutdown, hsig, hd, hg]
  · simp [handleSignal, hsig, hd]

/-- Witness for c3_signal_shutdown_sequence at a concrete signal and
environment with failing wait and server-shutdown results. -/
theorem c3_signal_shutdown_sequence_witness :
    (Sig.sigterm ≠ Sig.sighup) ∧
    handleSignal Sig.sigterm ⟨true, true, some "wait failed", none, some "shutdown failed"⟩ =
      ([Op.opSignalChild, Op.opWait, Op.opServerShutdown, Op.opExit 0], some 0) :=
  ⟨by decide,
    (c3_signal_shutdown_sequence Sig.sigterm
      ⟨true, true, some "wait failed", none, some "shutdown failed"⟩ (by decide)).1 rfl rfl⟩

/-- Claim C4 is refuted as stated: when the child exits with an error, the
orchestrator exits with code 1 immediately and does not shut down the HTTP
server first, contrary to the claim that both exit paths shut the server
down. -/
theorem c4_counterexample :
    handleProcessExit (some "exit status 1") none = ([Op.opExit 1], some 1) ∧
    Op.opServerShutdown ∉ (handleProcessExit (some "exit status 1") none).1 := by
  decide

/-- Claim C4 (amended): on a spontaneous clean child exit the orchestrator
shuts down the HTTP server and exits with code 0; on a child exit with
error it exits with code 1 immediately, without shutting down the HTTP
server; neither path signals or kills the already-dead child. -/
theorem c4_child_exit_behaviour :
    (∀ s : Option String, handleProcessExit none s = ([Op.opServerShutdown, Op.opExit 0], some 0)) ∧
    (∀ msg : String, ∀ s : Option String,
      handleProcessExit (some msg) s = ([Op.opExit 1], some 1)) ∧
    (∀ err s : Option String, Op.opSignalChild ∉ (handleProcessExit err s).1 ∧
      Op.opKillChild ∉ (handleProcessExit err s).1) := by
  refine ⟨fun s => rfl, fun msg s => rfl, fun err s => ?_⟩
  cases err <;> simp [handleProcessExit]

/-- Witness for c4_child_exit_behaviour at concrete exit events. -/
theorem c4_child_exit_behaviour_witness :
    handleProcessExit none none = ([Op.opServerShutdown, Op.opExit 0], some 0) ∧
    handleProcessExit (some "exit status 1") none = ([Op.opExit 1], some 1) ∧
    (Op.opSignalChild ∉ (handleProcessExit none none).1 ∧
      Op.opKillChild ∉ (handleProcessExit none none).1) :=
  ⟨c4_child_exit_behaviour.1 none, c4_child_exit_behaviour.2.1 "exit status 1" none,
    c4_child_exit_behaviour.2.2 none none⟩

/-- Claim C5 is refuted as stated: Kill on a child that has already exited
and been reaped by a wait returns the process-already-finished error, so
it does error, and it does not report the recorded exit outcome. -/
theorem c5_counterexample :
    ProcessManager.Kill (ChildStatus.reaped (some "exit status 2")) ≠ none ∧
    ProcessManager.Kill (ChildStatus.reaped (some "exit status 2")) ≠ some "exit status 2" := by
  decide

/-- Claim C5 (amended): Kill never panics and never reports the recorded
exit outcome; it returns nil on a running child, nil on an exited child
that has not yet been reaped, and the process-already-finished error once
a wait has reaped the child — in particular after GracefulShutdown has
observed the child's exit. -/
theorem c5_kill_after_exit (o : Option String) :
    ProcessManager.Kill (ChildStatus.exitedNotReaped o) = none ∧
    ProcessManager.Kill (ChildStatus.reaped o) = some "os: process already finished" ∧
    ProcessManager.Kill ChildStatus.running = none :=
  ⟨rfl, rfl, rfl⟩

/-- Claim C9: the configuration loader is total (it always produces a
fully-populated Configuration value) and every field falls back to its
documented default: duration fields use the default when the variable is
unset or fails to parse and the parsed value when it parses; string fields
use the default when unset. -/
theorem c9_configuration_loader (parseDuration : String → Option Int) (env : Env) :
    (env "CONNECT_TIMEOUT" = "" →
      (loadConfiguration parseDuration env).ConnectTimeout = defaultConnectTimeout) ∧
    (env "CONNECT_TIMEOUT" ≠ "" → parseDuration (env "CONNECT_TIMEOUT") = none →
      (loadConfiguration parseDuration env).ConnectTimeout = defaultConnectTimeout) ∧
    (∀ d, env "CONNECT_TIMEOUT" ≠ "" → parseDuration (env "CONNECT_TIMEOUT") = some d →
      (loadConfiguration parseDuration env).ConnectTimeout = d) ∧
    (env "GRACE_PERIOD" = "" →
      (loadConfiguration parseDuration env).GracePeriod = defaultGracePeriod) ∧
    (env "GRACE_PERIOD" ≠ "" → parseDuration (env "GRACE_PERIOD") = none →
      (loadConfiguration parseDuration env).GracePeriod = defaultGracePeriod) ∧
    (∀ d, env "GRACE_PERIOD" ≠ "" → parseDuration (env "GRACE_PERIOD") = some d →
      (loadConfiguration parseDuration env).GracePeriod = d) ∧
    (env "SHUTDOWN_TIMEOUT" = "" →
      (loadConfiguration parseDuration env).ShutdownTimeout = defaultShutdownTimeout) ∧
    (env "SHUTDOWN_TIMEOUT" ≠ "" → parseDuration (env "SHUTDOWN_TIMEOUT") = none →
      (loadConfiguration parseDuration env).ShutdownTimeout = defaultShutdownTimeout) ∧
    (∀ d, env "SHUTDOWN_TIMEOUT" ≠ "" → parseDuration (env "SHUTDOWN_TIMEOUT") = some d →
      (loadConfiguration parseDuration env).ShutdownTimeout = d) ∧
    (env "XRAY_BIN" = "" → (loadConfiguration parseDuration env).XrayBin = defaultXrayBin) ∧
    (env "XRAY_CONFIG" = "" →
      (loadConfiguration parseDuration env).XrayConfig = defaultXrayConfig) ∧
    (env "HEALTH_ADDR" = "" →
      (loadConfiguration parseDuration env).HealthAddr = defaultHealthAddr) ∧
    (env "XRAY_MGMT_SOCKET" = "" →
      (loadConfiguration parseDuration env).XrayMgmtSocket = defaultXrayMgmtSocket) ∧
    (env "XRAY_CLIENT_UUID" = "" →
      (loadConfiguration parseDuration env).ClientUUID = defaultClientUUID) ∧
    (env "XRAY_CLIENT_EMAIL" = "" →
      (loadConfiguration parseDuration env).ClientEmail = defaultClientEmail) := by
  refine ⟨fun h => ?_, fun h hp => ?_, fun d h hp => ?_, fun h => ?_, fun h hp => ?_,
    fun d h hp => ?_, fun h => ?_, fun h hp => ?_, fun d h hp => ?_, fun h => ?_,
    fun h => ?_, fun h => ?_, fun h => ?_, fun h => ?_, fun h => ?_⟩ <;>
    simp_all [loadConfiguration, parseDurationOrDefault, getEnvOrDefault]

/-- Witness for c9_configuration_loader: an empty environment yields the
default connect timeout, and an environment full of unparsable strings
yields the default grace period. -/
theorem c9_configuration_loader_witness :
    ((fun _ : String => "") "CONNECT_TIMEOUT" = "") ∧
    (loadConfiguration (fun _ => none) (fun _ => "")).ConnectTimeout = defaultConnectTimeout ∧
    (loadConfiguration (fun _ => none) (fun _ => "bogus")).GracePeriod = defaultGracePeriod :=
  ⟨rfl, (c9_configuration_loader (fun _ => none) (fun _ => "")).1 rfl,
    (c9_configuration_loader (fun _ => none) (fun _ => "bogus")).2.2.2.2.1 (by decide) rfl⟩

/-- Helper: invariant of a run of Allow calls at nondecreasing times for a
fixed client key. If the stored list for the key holds exactly the admitted
times still inside the trailing window of the previous call, all admitted
times are in the past, and every trailing window so far holds at most N
admissions, then every trailing window of the whole run holds at most N
admissions. -/
theorem runAllow_window_bound_aux (ip : String) (W : Int) (N : Nat) (hW : 0 < W) :
    ∀ (calls : List Int) (rl : RateLimiter) (adm : List Int) (tprev : Int),
      rl.window = W → rl.limit = N →
      List.Chain (fun a b : Int => a ≤ b) tprev calls →
      rl.requests ip = adm.filter (fun t => decide (tprev - W < t)) →
      (∀ t ∈ adm, t ≤ tprev) →
      (∀ x : Int, adm.countP (inWindow W x) ≤ N) →
      ∀ x : Int, (adm ++ (runAllow rl ip calls).2).countP (inWindow W x) ≤ N := by
  intro calls
  induction calls with
  | nil =>
    intro rl adm tprev _ _ _ _ _ hcnt x
    simpa [runAllow] using hcnt x
  | cons now ts ih =>
    intro rl adm tprev hw hl hch hreq hle hcnt x
    obtain ⟨hpn, hch'⟩ := List.chain_cons.mp hch
    have hprev_now : tprev ≤ now := hpn
    have hvalid : (rl.requests ip).filter (fun t => decide (now - rl.window < t)) =
        adm.filter (fun t => decide (now - W < t)) := by
      rw [hreq, hw, List.filter_filter]
      apply List.filter_congr
      intro a _
      by_cases hna : now - W < a
      · have htp : tprev - W < a := by omega
        simp [hna, htp]
      · simp [hna]
    by_cases hlim : rl.limit ≤
        ((rl.requests ip).filter (fun t => decide (now - rl.window < t))).length
    · -- the call is rejected: the stored list is only pruned
      have hstep : rl.Allow now ip = (false,
          { rl with requests := fun k =>
              if k = ip then
                (rl.requests ip).filter (fun t => decide (now - rl.window < t))
              else rl.requests k }) := by
        simp [RateLimiter.Allow, hlim]
      have hrun : (runAllow rl ip (now :: ts)).2 =
          (runAllow (rl.Allow now ip).2 ip ts).2 := by
        simp [runAllow, hstep]
      have hw2 : ((rl.Allow now ip).2).window = W := by rw [hstep]; exact hw
      have hl2 : ((rl.Allow now ip).2).limit = N := by rw [hstep]; exact hl
      have hreq2 : ((rl.Allow now ip).2).requests ip =
          adm.filter (fun t => decide (now - W < t)) := by
        rw [hstep]
        simpa using hvalid
      have hgoal := ih ((rl.Allow now ip).2) adm now hw2 hl2 hch' hreq2
        (fun t ht => le_trans (hle t ht) hprev_now) hcnt x
      rw [hrun]
      exact hgoal
    · -- the call is admitted: now is recorded
      have hstep : rl.Allow now ip = (true,
          { rl with requests := fun k =>
              if k = ip then
                (rl.requests ip).filter (fun t => decide (now - rl.window < t)) ++ [now]
              else rl.requests k }) := by
        simp [RateLimiter.Allow, hlim]
      have hrun : (runAllow rl ip (now :: ts)).2 =
          [now] ++ (runAllow (rl.Allow now ip).2 ip ts).2 := by
        simp [runAllow, hstep]
      have hw2 : ((rl.Allow now ip).2).window = W := by rw [hstep]; exact hw
      have hl2 : ((rl.Allow now ip).2).limit = N := by rw [hstep]; exact hl
      have hreq2 : ((rl.Allow now ip).2).requests ip =
          (adm ++ [now]).filter (fun t => decide (now - W < t)) := by
        rw [hstep]
        have hnow : (now : Int) - W < now := by omega
        have hsingle : List.filter (fun t => decide (now - W < t)) [now] = [now] := by
          simp [List.filter_cons, hnow]
        simp [List.filter_append, hvalid, hsingle]
      have hle2 : ∀ t ∈ adm ++ [now], t ≤ now := by
        intro t ht
        rcases List.mem_append.mp ht with h | h
        · exact le_trans (hle t h) hprev_now
        · simp at h
          omega
      have hcnt2 : ∀ y : Int, (adm ++ [now]).countP (inWindow W y) ≤ N := by
        intro y
        rw [List.countP_append]
        by_cases hy : inWindow W y now = true
        · have hyd : y - W < now ∧ now ≤ y := by
            simpa [inWindow] using hy
          have hmono : adm.countP (inWindow W y) ≤
              adm.countP (fun t => decide (now - W < t)) := by
            apply List.countP_mono_left
            intro t _ hwt
            have hwd : y - W < t ∧ t ≤ y := by simpa [inWindow] using hwt
            simp
            omega
          have hlen : adm.countP (fun t => decide (now - W < t)) =
              (adm.filter (fun t => decide (now - W < t))).length :=
            List.countP_eq_length_filter _ _
          have hlt : (adm.filter (fun t => decide (now - W < t))).length < N := by
            rw [← hvalid]
            omega
          have hone : List.countP (inWindow W y) [now] = 1 := by
            simp [List.countP_cons, hy]
          omega
        · have hzero : List.countP (inWindow W y) [now] = 0 := by
            simp [List.countP_cons, hy]
          rw [hzero]
          simpa using hcnt y
      have hgoal := ih ((rl.Allow now ip).2) (adm ++ [now]) now hw2 hl2 hch' hreq2 hle2 hcnt2 x
      rw [hrun, ← List.append_assoc]
      exact hgoal

/-- Claim C6: each Allow call first prunes the stored timestamps for the
key down to those strictly inside the trailing window ending at now; it
rejects without recording exactly when the pruned count has reached the
capacity (ties at the capacity are rejections, and a rejection changes the
stored state only by the pruning); otherwise it records now and accepts.
The health handler's limiter uses capacity 10 and window one minute.
Consequently, for nondecreasing call times, at most N admissions for a key
fall inside any trailing window of length W. -/
theorem c6_rate_limiter_allow (rl : RateLimiter) (now : Int) (ip : String)
    (N : Nat) (W : Int) (key : String) (calls : List Int)
    (hW : 0 < W) (hchain : List.Chain' (fun a b : Int => a ≤ b) calls) :
    (((rl.Allow now ip).1 = false ↔
        rl.limit ≤ ((rl.requests ip).filter (fun t => decide (now - rl.window < t))).length) ∧
      ((rl.Allow now ip).1 = false →
        ((rl.Allow now ip).2).requests ip =
          (rl.requests ip).filter (fun t => decide (now - rl.window < t))) ∧
      ((rl.Allow now ip).1 = true →
        ((rl.Allow now ip).2).requests ip =
          (rl.requests ip).filter (fun t => decide (now - rl.window < t)) ++ [now])) ∧
    (healthRateLimiter.limit = 10 ∧ healthRateLimiter.window = minute) ∧
    (∀ x : Int,
      ((runAllow (NewRateLimiter N W) key calls).2).countP (inWindow W x) ≤ N) := by
  refine ⟨⟨?_, ?_, ?_⟩, ⟨rfl, rfl⟩, ?_⟩
  · by_cases hlim : rl.limit ≤
        ((rl.requests ip).filter (fun t => decide (now - rl.window < t))).length <;>
      simp [RateLimiter.Allow, hlim]
  · intro hres
    by_cases hlim : rl.limit ≤
        ((rl.requests ip).filter (fun t => decide (now - rl.window < t))).length
    · simp [RateLimiter.Allow, hlim]
    · simp [RateLimiter.Allow, hlim] at hres
  · intro hres
    by_cases hlim : rl.limit ≤
        ((rl.requests ip).filter (fun t => decide (now - rl.window < t))).length
    · simp [RateLimiter.Allow, hlim] at hres
    · simp [RateLimiter.Allow, hlim]
  · cases calls with
    | nil => intro x; simp [runAllow]
    | cons c ts =>
      intro x
      have h := runAllow_window_bound_aux key W N hW (c :: ts) (NewRateLimiter N W) [] c
        rfl rfl (List.chain_cons.mpr ⟨le_refl c, hchain⟩) (by simp [NewRateLimiter])
        (by simp) (by simp) x
      simpa using h

/-- Witness for c6_rate_limiter_allow on a concrete limiter, key and
nondecreasing call times. -/
theorem c6_rate_limiter_allow_witness :
    (0 < minute) ∧ List.Chain' (fun a b : Int => a ≤ b) [0, 1, 2] ∧
    (∀ x : Int,
      ((runAllow (NewRateLimiter 2 minute) "1.2.3.4" [0, 1, 2]).2).countP (inWindow minute x) ≤ 2) :=
  ⟨by decide, by norm_num [List.chain'_cons],
    (c6_rate_limiter_allow (NewRateLimiter 2 minute) 0 "1.2.3.4" 2 minute "1.2.3.4" [0, 1, 2]
      (by decide) (by norm_num [List.chain'_cons])).2.2⟩

/-- Claim C7 is refuted as stated: the check does not succeed whenever the
dial is accepted — Check returns conn.Close()'s result, so an accepted
connection whose close errors makes the check fail. -/
theorem c7_counterexample :
    HealthChecker.Check (Except.ok ⟨some "close failed"⟩) = some "close failed" ∧
    HealthChecker.Check (Except.ok ⟨some "close failed"⟩) ≠ none := by
  decide

/-- Claim C7 (amended): Check makes a single dial attempt with no internal
retry; a dial failure (timeout or refusal) is reported as that single
failure; on acceptance the connection is immediately closed and the close
result is reported, so the check succeeds iff the dial is accepted and
the close succeeds. -/
theorem c7_health_check (dial : Except String Conn) :
    (HealthChecker.Check dial = none ↔
      ∃ conn, dial = Except.ok conn ∧ conn.closeResult = none) ∧
    (∀ e, dial = Except.error e → HealthChecker.Check dial = some e) ∧
    (∀ conn, dial = Except.ok conn → HealthChecker.Check dial = conn.closeResult) := by
  refine ⟨?_, ?_, ?_⟩ <;> cases dial <;> simp [HealthChecker.Check]

/-- Witness for c7_health_check at a refused dial. -/
theorem c7_health_check_witness :
    ((Except.error "connection refused" : Except String Conn) = Except.error "connection refused") ∧
    HealthChecker.Check (Except.error "connection refused") = some "connection refused" :=
  ⟨rfl, (c7_health_check (Except.error "connection refused")).2.1 "connection refused" rfl⟩

/-- Claim C10: the rate-limit client key prefers the client-controlled
forwarded headers over the socket peer address, in the order
X-Forwarded-For, X-Real-IP, CF-Connecting-IP, and only with all three
absent uses the host part of the remote address (the raw remote address
when it does not split); hence two requests from the same socket peer
with different X-Forwarded-For values fall under different keys. -/
theorem c10_client_key_from_headers :
    (∀ r : HttpRequest, r.xForwardedFor ≠ "" → getClientIP r = r.xForwardedFor) ∧
    (∀ r : HttpRequest, r.xForwardedFor = "" → r.xRealIP ≠ "" → getClientIP r = r.xRealIP) ∧
    (∀ r : HttpRequest, r.xForwardedFor = "" → r.xRealIP = "" → r.cfConnectingIP ≠ "" →
      getClientIP r = r.cfConnectingIP) ∧
    (∀ r : HttpRequest, r.xForwardedFor = "" → r.xRealIP = "" → r.cfConnectingIP = "" →
      getClientIP r = (match splitHostPort r.remoteAddr with
        | some host => host
        | none => r.remoteAddr)) ∧
    (∀ r₁ r₂ : HttpRequest, r₁.remoteAddr = r₂.remoteAddr →
      r₁.xForwardedFor ≠ "" → r₂.xForwardedFor ≠ "" →
      r₁.xForwardedFor ≠ r₂.xForwardedFor → getClientIP r₁ ≠ getClientIP r₂) := by
  refine ⟨fun r h1 => ?_, fun r h1 h2 => ?_, fun r h1 h2 h3 => ?_, fun r h1 h2 h3 => ?_,
    fun r₁ r₂ hra h1 h2 hne => ?_⟩
  · simp [getClientIP, h1]
  · simp [getClientIP, h1, h2]
  · simp [getClientIP, h1, h2, h3]
  · simp [getClientIP, h1, h2, h3]
  · rw [show getClientIP r₁ = r₁.xForwardedFor by simp [getClientIP, h1],
      show getClientIP r₂ = r₂.xForwardedFor by simp [getClientIP, h2]]
    exact hne

/-- Witness for c10_client_key_from_headers at concrete requests sharing a
socket peer but carrying different X-Forwarded-For values. -/
theorem c10_client_key_from_headers_witness :
    ((HttpRequest.mk "GET" "/" "1.1.1.1" "" "" "9.9.9.9:80").xForwardedFor ≠ "") ∧
    getClientIP (HttpRequest.mk "GET" "/" "1.1.1.1" "" "" "9.9.9.9:80") = "1.1.1.1" ∧
    getClientIP (HttpRequest.mk "GET" "/" "1.1.1.1" "" "" "9.9.9.9:80") ≠
      getClientIP (HttpRequest.mk "GET" "/" "2.2.2.2" "" "" "9.9.9.9:80") :=
  ⟨by decide,
    c10_client_key_from_headers.1 _ (by decide),
    c10_client_key_from_headers.2.2.2.2 _ _ rfl (by decide) (by decide) (by decide)⟩

/-- Helper: month and day bounds for the civil-calendar computation. -/
theorem monthOf_dayOf_bounds (doe : Nat) (h : doe < 146097) :
    1 ≤ monthOf doe ∧ monthOf doe ≤ 12 ∧ 1 ≤ dayOf doe ∧ dayOf doe ≤ 31 := by
  unfold monthOf dayOf mpOf doyOf yoeOf
  split <;> omega

/-- Helper: every formatted timestamp has the RFC3339 UTC shape. -/
theorem rfc3339UTC_wellformed (sec : Nat) : IsRFC3339UTC (rfc3339UTC sec) := by
  have hdoe : doeOf (sec / 86400) < 146097 := by
    unfold doeOf
    exact Nat.mod_lt _ (by norm_num)
  obtain ⟨h1, h2, h3, h4⟩ := monthOf_dayOf_bounds _ hdoe
  exact ⟨yearOf (sec / 86400), monthOf (doeOf (sec / 86400)), dayOf (doeOf (sec / 86400)),
    sec % 86400 / 3600, sec % 86400 % 3600 / 60, sec % 86400 % 60,
    h1, h2, h3, h4, by omega, by omega, by omega, rfl⟩

/-- Helper: every response of ServeHTTP carries the security headers
followed by one content-type header. -/
theorem serveHTTP_headers (dial : Except String Conn) (nowSec : Nat)
    (rl : RateLimiter) (reqTime : Int) (r : HttpRequest) :
    ∃ ct, (HealthHandler.ServeHTTP dial nowSec rl reqTime r).1.headers =
      securityHeaders ++ [("Content-Type", ct)] := by
  unfold HealthHandler.ServeHTTP
  by_cases hres : (rl.Allow reqTime (getClientIP r)).1 = false
  · exact ⟨"text/plain; charset=utf-8", by simp [hres]⟩
  · by_cases hpath : r.urlPath ≠ "/"
    · exact ⟨"text/plain; charset=utf-8", by simp [hres, hpath]⟩
    · cases hc : HealthChecker.Check dial
      · exact ⟨"application/json", by simp [hres, hpath, hc]⟩
      · exact ⟨"text/plain; charset=utf-8", by simp [hres, hpath, hc]⟩

/-- Claim C8: for a GET request to the root path admitted by the rate
limiter, a successful probe yields the 200 JSON envelope with success,
the ok message and a data map holding the healthy status and an RFC3339
UTC timestamp; a failed probe yields 503 with the plain-text token; a
rate-limited request yields 429 with a plain-text body; and every
response carries the fixed hardening headers. -/
theorem c8_health_endpoint (dial : Except String Conn) (nowSec : Nat)
    (rl : RateLimiter) (reqTime : Int) (r : HttpRequest)
    (hmethod : r.method = "GET") (hpath : r.urlPath = "/")
    (hallowed : (rl.Allow reqTime (getClientIP r)).1 = true) :
    (HealthChecker.Check dial = none →
      (HealthHandler.ServeHTTP dial nowSec rl reqTime r).1 =
        { status := 200,
          headers := securityHeaders ++ [("Content-Type", "application/json")],
          body := RespBody.jsonBody
            { success := true, message := "ok",
              data := [("status", "healthy"), ("timestamp", rfc3339UTC nowSec)],
              error := "" } } ∧
      IsRFC3339UTC (rfc3339UTC nowSec)) ∧
    (∀ e, HealthChecker.Check dial = some e →
      (HealthHandler.ServeHTTP dial nowSec rl reqTime r).1 =
        { status := 503,
          headers := securityHeaders ++ [("Content-Type", "text/plain; charset=utf-8")],
          body := RespBody.textBody "xray-api-unreachable" }) ∧
    (∀ (dial2 : Except String Conn) (n2 : Nat) (rl2 : RateLimiter) (t2 : Int)
        (r2 : HttpRequest), (rl2.Allow t2 (getClientIP r2)).1 = false →
      (HealthHandler.ServeHTTP dial2 n2 rl2 t2 r2).1 =
        { status := 429,
          headers := securityHeaders ++ [("Content-Type", "text/plain; charset=utf-8")],
          body := RespBody.textBody "rate limit exceeded" }) ∧
    (∀ (dial2 : Except String Conn) (n2 : Nat) (rl2 : RateLimiter) (t2 : Int)
        (r2 : HttpRequest),
      ("X-Content-Type-Options", "nosniff") ∈
          (HealthHandler.ServeHTTP dial2 n2 rl2 t2 r2).1.headers ∧
        ("X-Frame-Options", "DENY") ∈
          (HealthHandler.ServeHTTP dial2 n2 rl2 t2 r2).1.headers ∧
        ("Referrer-Policy", "strict-origin-when-cross-origin") ∈
          (HealthHandler.ServeHTTP dial2 n2 rl2 t2 r2).1.headers ∧
        ("Content-Security-Policy", "default-src \x27none\x27") ∈
          (HealthHandler.ServeHTTP dial2 n2 rl2 t2 r2).1.headers) := by
  refine ⟨fun hc => ⟨?_, rfc3339UTC_wellformed nowSec⟩, fun e hc => ?_,
    fun dial2 n2 rl2 t2 r2 hrej => ?_, fun dial2 n2 rl2 t2 r2 => ?_⟩
  · simp [HealthHandler.ServeHTTP, hallowed, hpath, hc]
  · simp [HealthHandler.ServeHTTP, hallowed, hpath, hc]
  · simp [HealthHandler.ServeHTTP, hrej]
  · obtain ⟨ct, hct⟩ := serveHTTP_headers dial2 n2 rl2 t2 r2
    rw [hct]
    refine ⟨?_, ?_, ?_, ?_⟩ <;> simp [securityHeaders]

/-- Witness for c8_health_endpoint at a fresh limiter, a GET request to
the root path and a dial whose connection closes cleanly. -/
theorem c8_health_endpoint_witness :
    ((HttpRequest.mk "GET" "/" "" "" "" "9.9.9.9:1234").method = "GET") ∧
    ((HttpRequest.mk "GET" "/" "" "" "" "9.9.9.9:1234").urlPath = "/") ∧
    (((NewRateLimiter 10 minute).Allow 0
        (getClientIP (HttpRequest.mk "GET" "/" "" "" "" "9.9.9.9:1234"))).1 = true) ∧
    ((HealthHandler.ServeHTTP (Except.ok ⟨none⟩) 0 (NewRateLimiter 10 minute) 0
        (HttpRequest.mk "GET" "/" "" "" "" "9.9.9.9:1234")).1 =
      { status := 200,
        headers := securityHeaders ++ [("Content-Type", "application/json")],
        body := RespBody.jsonBody
          { success := true, message := "ok",
            data := [("status", "healthy"), ("timestamp", rfc3339UTC 0)],
            error := "" } } ∧
      IsRFC3339UTC (rfc3339UTC 0)) :=
  ⟨rfl, rfl, by decide,
    (c8_health_endpoint (Except.ok ⟨none⟩) 0 (NewRateLimiter 10 minute) 0
      (HttpRequest.mk "GET" "/" "" "" "" "9.9.9.9:1234") rfl rfl (by decide)).1 rfl⟩

end VpnNode
